/-
Verification of the SwiftNavigation CRecast bridging layer
(Sources/CRecast/Bridging.cpp, Sources/CRecast/include/Bridging.h).

The bridging layer orchestrates the Recast navigation-mesh baking
pipeline (bindingRunBulk), converts a baked result into a Detour
navmesh blob (bindingGenerateDetour), and extracts a flat world-space
vertex/triangle buffer (bindingExtractVertsAndTriangles).

Modelling conventions:
  * The external Recast/Detour library calls (rcCreateHeightfield,
    rcBuildRegions, dtCreateNavMeshData, ...) are opaque, fallible
    operations; their success/failure outcomes are supplied by an
    oracle structure, so theorems quantify over every possible
    behaviour of the external library.  Likewise every heap allocation
    (rcAlloc*, calloc) can fail, with its outcome in the oracle.
  * Heap-resource lifetimes and stage invocations are recorded in an
    event trace: one event per allocation, per release, and per
    pipeline-stage call, in the order the C code performs them.
  * C float arithmetic is modelled exactly over ℚ (the claims under
    verification are about which formula is computed, not rounding);
    the literal 0.1f becomes 1/10.
  * C ints are modelled as Int, unsigned short entries as Nat,
    NULL-able pointers as Option, and a NULL dereference as a
    distinguished crash outcome.
-/
import Mathlib

namespace CRecast

/-- Status codes of the baking pipeline (`BCodeStatus` in Bridging.h). -/
inductive BCodeStatus where
  | ok
  | errMemory
  | errRasterize
  | errBuildCompactHeightfield
  | errBuildLayerRegions
  | errBuildRegionsMonotone
  | errBuildDistanceField
  | errBuildRegions
  | errAllocContour
  | errBuildContour
  | errUnknown
  | errAllocPolymesh
  | errBuildPolyMesh
  | errAllocDetailPolyMesh
  | errBuildDetailPolyMesh
  deriving DecidableEq, Repr

/-- Status codes of the Detour blob builder (`BDetourStatus` in Bridging.h). -/
inductive BDetourStatus where
  | ok
  | errVertices
  | errBuildNavmesh
  | errAllocNavmesh
  | errInitNavmesh
  deriving DecidableEq, Repr

/-- Flag bits (Bridging.h): three filter toggles and the 2-bit partition selector. -/
def FILTER_LOW_HANGING_OBSTACLES : Int := 1

def FILTER_LEDGE_SPANS : Int := 2

def FILTER_WALKABLE_LOW_HEIGHT_SPANS : Int := 4

def PARTITION_MASK : Int := 24

def PARTITION_WATERSHED : Int := 8

def PARTITION_MONOTONE : Int := 16

def PARTITION_LAYER : Int := 0

/-- The `rcConfig` fields read by the bridging layer (floats as ℚ). -/
structure RcConfig where
  width : Int
  height : Int
  bmin : ℚ × ℚ × ℚ
  bmax : ℚ × ℚ × ℚ
  cs : ℚ
  ch : ℚ
  walkableSlopeAngle : ℚ
  walkableHeight : Int
  walkableClimb : Int
  walkableRadius : Int
  maxEdgeLen : Int
  maxSimplificationError : ℚ
  minRegionArea : Int
  mergeRegionArea : Int
  maxVertsPerPoly : Int
  detailSampleDist : ℚ
  detailSampleMaxError : ℚ
  deriving DecidableEq, Repr

/-- `rcPolyMesh`: shared vertex array (3 unsigned shorts per vertex, grid
coordinates), polygon array (`nvp*2` unsigned shorts per polygon: the first
`nvp` are vertex indices terminated by `RC_MESH_NULL_IDX`), per-polygon
area/flags tags, bounds, and cell dimensions. -/
structure RcPolyMesh where
  nverts : Nat
  npolys : Nat
  nvp : Nat
  verts : List Nat
  polys : List Nat
  areas : List Nat
  flags : List Nat
  bmin : ℚ × ℚ × ℚ
  bmax : ℚ × ℚ × ℚ
  cs : ℚ
  ch : ℚ
  deriving DecidableEq, Repr

/-- `rcPolyMeshDetail`: opaque to the bridging layer except for the array
lengths and pointers passed through to Detour. -/
structure RcPolyMeshDetail where
  nmeshes : Nat
  nverts : Nat
  ntris : Nat
  deriving DecidableEq, Repr

/-- The null vertex-index sentinel `RC_MESH_NULL_IDX` (0xffff). -/
def RC_MESH_NULL_IDX : Nat := 0xffff

/-- `BindingBulkResult`: the pipeline's result envelope (Bridging.h). -/
structure BindingBulkResult where
  code : BCodeStatus
  cs : ℚ
  ch : ℚ
  poly_mesh : Option RcPolyMesh
  poly_mesh_detail : Option RcPolyMeshDetail
  max_verts_per_poly : Int
  deriving DecidableEq, Repr

/-- The heap resources allocated by `bindingRunBulk`: the five staged
Recast structures plus the auxiliary per-triangle area buffer. -/
inductive Res where
  | hf
  | chf
  | cset
  | polyMesh
  | detailMesh
  | triAreas
  deriving DecidableEq, Repr

/-- Pipeline-stage invocations of the external library recorded in the trace. -/
inductive StageCall where
  | createHeightfield
  | markWalkableTriangles
  | rasterizeTriangles
  | filterLowHangingWalkableObstacles
  | filterLedgeSpans
  | filterWalkableLowHeightSpans
  | buildCompactHeightfield
  | erodeWalkableArea
  | buildLayerRegions
  | buildRegionsMonotone
  | buildDistanceField
  | buildRegions
  | buildContours
  | buildPolyMesh
  | buildPolyMeshDetail
  deriving DecidableEq, Repr

/-- One observable event of a `bindingRunBulk` execution. -/
inductive Event where
  | alloc (r : Res)
  | free (r : Res)
  | stage (s : StageCall)
  deriving DecidableEq, Repr

/-- Oracle fixing the outcome of every fallible external call and heap
allocation inside `bindingRunBulk`, plus the meshes the library would
produce on success. -/
structure BulkOracle where
  allocHf : Bool
  callocResult : Bool
  createHf : Bool
  callocTriAreas : Bool
  rasterize : Bool
  allocChf : Bool
  buildChf : Bool
  buildLayer : Bool
  buildMonotone : Bool
  buildDistField : Bool
  buildRegions : Bool
  allocCset : Bool
  buildContours : Bool
  allocPolyMesh : Bool
  buildPolyMesh : Bool
  allocDetail : Bool
  buildDetail : Bool
  mesh : RcPolyMesh
  dmesh : RcPolyMeshDetail
  deriving DecidableEq, Repr

/-- Outcome of one `bindingRunBulk` execution: the C function may return
NULL (no envelope), crash on a NULL dereference (when the envelope calloc
fails, line 50-51 writes through the NULL pointer), or return an envelope. -/
inductive BulkOutcome where
  | nullReturn
  | crash
  | returned (r : BindingBulkResult)
  deriving DecidableEq, Repr

/-- Resources currently held plus the event trace so far. -/
structure PipeState where
  hf : Bool
  chf : Bool
  cset : Bool
  pm : Bool
  dm : Bool
  triAreas : Bool
  events : List Event
  deriving DecidableEq, Repr

/-- `exit1:` label — free the heightfield if held. -/
def exit1 (st : PipeState) : PipeState :=
  if st.hf then { st with hf := false, events := st.events ++ [Event.free Res.hf] } else st

/-- `exit2:` label — free the compact heightfield if held, then fall through to `exit1`. -/
def exit2 (st : PipeState) : PipeState :=
  exit1 (if st.chf then { st with chf := false, events := st.events ++ [Event.free Res.chf] } else st)

/-- `exit3:` label — free the contour set if held, then fall through to `exit2`. -/
def exit3 (st : PipeState) : PipeState :=
  exit2 (if st.cset then { st with cset := false, events := st.events ++ [Event.free Res.cset] } else st)

/-- `exit4:` label — free the polygon mesh if held, then fall through to `exit3`. -/
def exit4 (st : PipeState) : PipeState :=
  exit3 (if st.pm then { st with pm := false, events := st.events ++ [Event.free Res.polyMesh] } else st)

/-- `exit5:` label — free the detail mesh if held, then fall through to `exit4`. -/
def exit5 (st : PipeState) : PipeState :=
  exit4 (if st.dm then { st with dm := false, events := st.events ++ [Event.free Res.detailMesh] } else st)

/-- The failure envelope returned through the `exit*` labels: the calloc-zeroed
result with the given status and the config values copied at lines 54-56. -/
def failResult (cfg : RcConfig) (code : BCodeStatus) : BindingBulkResult :=
  { code := code, cs := cfg.cs, ch := cfg.ch, poly_mesh := none, poly_mesh_detail := none,
    max_verts_per_poly := cfg.maxVertsPerPoly }

/-- Append one event. -/
def emit (st : PipeState) (e : Event) : PipeState :=
  { st with events := st.events ++ [e] }

/-- Steps 5-7 of `bindingRunBulk` (Bridging.cpp lines 145-210): contour
tracing, polygon-mesh build, detail-mesh build, final releases and the
success return. -/
def bulkAfterPartition (o : BulkOracle) (cfg : RcConfig) (st : PipeState) :
    BulkOutcome × List Event :=
  -- cset = rcAllocContourSet()
  if !o.allocCset then
    (BulkOutcome.returned (failResult cfg BCodeStatus.errAllocContour), (exit2 st).events) else
  let st := { emit st (Event.alloc Res.cset) with cset := true }
  let st := emit st (Event.stage StageCall.buildContours)
  if !o.buildContours then
    (BulkOutcome.returned (failResult cfg BCodeStatus.errBuildContour), (exit3 st).events) else
  -- poly_mesh = rcAllocPolyMesh()
  if !o.allocPolyMesh then
    (BulkOutcome.returned (failResult cfg BCodeStatus.errAllocPolymesh), (exit3 st).events) else
  let st := { emit st (Event.alloc Res.polyMesh) with pm := true }
  let st := emit st (Event.stage StageCall.buildPolyMesh)
  if !o.buildPolyMesh then
    (BulkOutcome.returned (failResult cfg BCodeStatus.errBuildPolyMesh), (exit4 st).events) else
  -- detail_mesh = rcAllocPolyMeshDetail()
  if !o.allocDetail then
    (BulkOutcome.returned (failResult cfg BCodeStatus.errAllocDetailPolyMesh),
      (exit4 st).events) else
  let st := { emit st (Event.alloc Res.detailMesh) with dm := true }
  let st := emit st (Event.stage StageCall.buildPolyMeshDetail)
  if !o.buildDetail then
    (BulkOutcome.returned (failResult cfg BCodeStatus.errBuildDetailPolyMesh),
      (exit5 st).events) else
  -- success: free chf and cset, attach the meshes, return BCODE_OK
  let st := { emit st (Event.free Res.chf) with chf := false }
  let st := { emit st (Event.free Res.cset) with cset := false }
  (BulkOutcome.returned
    { code := BCodeStatus.ok, cs := cfg.cs, ch := cfg.ch,
      poly_mesh := some o.mesh, poly_mesh_detail := some o.dmesh,
      max_verts_per_poly := cfg.maxVertsPerPoly },
    st.events)

/-- The region-partitioning block of `bindingRunBulk` (Bridging.cpp lines
118-143): `partition = flags & PARTITION_MASK` selects one branch of the
if/else chain; a flags value with both partition bits set matches no branch
and falls through without any partitioning call. -/
def bulkPartitionPhase (o : BulkOracle) (cfg : RcConfig) (flags : Int) (st : PipeState) :
    BulkOutcome × List Event :=
  let partition : Int := flags.land PARTITION_MASK
  if partition = PARTITION_LAYER then
    let st := emit st (Event.stage StageCall.buildLayerRegions)
    if !o.buildLayer then
      (BulkOutcome.returned (failResult cfg BCodeStatus.errBuildLayerRegions),
        (exit2 st).events) else
    bulkAfterPartition o cfg st
  else if partition = PARTITION_MONOTONE then
    let st := emit st (Event.stage StageCall.buildRegionsMonotone)
    if !o.buildMonotone then
      (BulkOutcome.returned (failResult cfg BCodeStatus.errBuildRegionsMonotone),
        (exit2 st).events) else
    bulkAfterPartition o cfg st
  else if partition = PARTITION_WATERSHED then
    let st := emit st (Event.stage StageCall.buildDistanceField)
    if !o.buildDistField then
      (BulkOutcome.returned (failResult cfg BCodeStatus.errBuildDistanceField),
        (exit2 st).events) else
    let st := emit st (Event.stage StageCall.buildRegions)
    if !o.buildRegions then
      (BulkOutcome.returned (failResult cfg BCodeStatus.errBuildRegions),
        (exit2 st).events) else
    bulkAfterPartition o cfg st
  else
    -- both partition bits set: no branch of the if/else chain matches,
    -- control falls through with no partitioning call at all
    bulkAfterPartition o cfg st

/-- `bindingRunBulk` (Bridging.cpp lines 19-228): the full baking pipeline,
returning its outcome together with the event trace of allocations,
releases, and external stage calls.  The `if (false)` debug-dump block is
dead code and omitted; the geometry arrays (`verts`, `nverts`, `tris`) and
the triangle count are only handed to opaque library calls, so only the
triangle count (sizing the `tri_areas` calloc) appears as a parameter. -/
def bindingRunBulk (o : BulkOracle) (cfg : RcConfig) (flags : Int) (_ntris : Nat) :
    BulkOutcome × List Event :=
  -- hf = rcAllocHeightfield(); if NULL: return NULL
  if !o.allocHf then (BulkOutcome.nullReturn, []) else
  let st := { hf := true, chf := false, cset := false, pm := false, dm := false,
              triAreas := false, events := [Event.alloc Res.hf] : PipeState }
  -- result = calloc(...); result->code = BCODE_ERR_UNKNOWN dereferences NULL on failure
  if !o.callocResult then (BulkOutcome.crash, st.events) else
  -- rcCreateHeightfield: on failure goto exit1 with code still BCODE_ERR_UNKNOWN
  let st := emit st (Event.stage StageCall.createHeightfield)
  if !o.createHf then
    (BulkOutcome.returned (failResult cfg BCodeStatus.errUnknown), (exit1 st).events) else
  -- tri_areas = calloc(ntris, 1)
  if !o.callocTriAreas then
    (BulkOutcome.returned (failResult cfg BCodeStatus.errMemory), (exit1 st).events) else
  let st := { emit st (Event.alloc Res.triAreas) with triAreas := true }
  -- rcMarkWalkableTriangles (no failure signal), then rcRasterizeTriangles
  let st := emit st (Event.stage StageCall.markWalkableTriangles)
  let st := emit st (Event.stage StageCall.rasterizeTriangles)
  if !o.rasterize then
    (BulkOutcome.returned (failResult cfg BCodeStatus.errRasterize), (exit1 st).events) else
  -- the three optional filters, in fixed order
  let st := if flags.land FILTER_LOW_HANGING_OBSTACLES ≠ 0 then
      emit st (Event.stage StageCall.filterLowHangingWalkableObstacles) else st
  let st := if flags.land FILTER_LEDGE_SPANS ≠ 0 then
      emit st (Event.stage StageCall.filterLedgeSpans) else st
  let st := if flags.land FILTER_WALKABLE_LOW_HEIGHT_SPANS ≠ 0 then
      emit st (Event.stage StageCall.filterWalkableLowHeightSpans) else st
  -- chf = rcAllocCompactHeightfield()
  if !o.allocChf then
    (BulkOutcome.returned (failResult cfg BCodeStatus.errMemory), (exit1 st).events) else
  let st := { emit st (Event.alloc Res.chf) with chf := true }
  -- rcBuildCompactHeightfield
  let st := emit st (Event.stage StageCall.buildCompactHeightfield)
  if !o.buildChf then
    (BulkOutcome.returned (failResult cfg BCodeStatus.errBuildCompactHeightfield),
      (exit2 st).events) else
  -- rcFreeHeightField(hf); hf = nullptr  (immediately after the compact build)
  let st := { emit st (Event.free Res.hf) with hf := false }
  -- rcErodeWalkableArea (no failure signal)
  let st := emit st (Event.stage StageCall.erodeWalkableArea)
  bulkPartitionPhase o cfg flags st

/-- Oracle for the fallible external calls inside `bindingGenerateDetour`:
whether `dtCreateNavMeshData` succeeds (and the blob size it would
produce) and whether `dtAllocNavMesh` succeeds. -/
structure DetourOracle where
  createNavMeshData : Bool
  navDataSize : Nat
  allocNavMesh : Bool
  deriving DecidableEq, Repr

/-- Observable outcome of `bindingGenerateDetour`: the returned status, the
state of the input polygon mesh afterwards (its `flags` array is the only
thing the function mutates), how many times the serialization routine
`dtCreateNavMeshData` was invoked, whether/with which size the caller's
`result`/`result_size` out-parameters were written, and whether the built
`navData` buffer was freed again with `dtFree`. -/
structure DetourObs where
  status : BDetourStatus
  poly_mesh : Option RcPolyMesh
  serializeCalls : Nat
  resultWritten : Option Nat
  freedNavData : Bool
  deriving DecidableEq, Repr

/-- `bindingGenerateDetour` (Bridging.cpp lines 247-311).  `dtCap` stands
for the external constant `DT_VERTS_PER_POLYGON`, the query engine's fixed
per-polygon vertex capacity (the Detour headers are outside this
repository, so the capacity is a parameter).  `none` models the NULL
dereference that happens when the capacity check passes but a mesh pointer
in `data` is NULL. -/
def bindingGenerateDetour (o : DetourOracle) (dtCap : Int) (data : BindingBulkResult)
    (_agentHeight _agentRadius _agentMaxClimb : ℚ) : Option DetourObs :=
  -- if (data->max_verts_per_poly > DT_VERTS_PER_POLYGON) return BD_ERR_VERTICES
  if data.max_verts_per_poly > dtCap then
    some { status := BDetourStatus.errVertices, poly_mesh := data.poly_mesh,
           serializeCalls := 0, resultWritten := none, freedNavData := false }
  else
    match data.poly_mesh, data.poly_mesh_detail with
    | some pm, some _dm =>
      -- for (i = 0; i < npolys; i++) poly_mesh->flags[i] = 1
      let pm := { pm with flags := List.replicate pm.npolys 1 }
      -- params assembly is pure plumbing into the opaque dtCreateNavMeshData
      if !o.createNavMeshData then
        -- on failure the call is redundantly repeated once, result discarded
        some { status := BDetourStatus.errBuildNavmesh, poly_mesh := some pm,
               serializeCalls := 2, resultWritten := none, freedNavData := false }
      else if !o.allocNavMesh then
        -- dtAllocNavMesh failed: dtFree(navData), return BD_ERR_ALLOC_NAVMESH
        some { status := BDetourStatus.errAllocNavmesh, poly_mesh := some pm,
               serializeCalls := 1, resultWritten := none, freedNavData := true }
      else
        -- *result = navData; *result_size = navDataSize; return BD_OK
        some { status := BDetourStatus.ok, poly_mesh := some pm,
               serializeCalls := 1, resultWritten := some o.navDataSize,
               freedNavData := false }
    | _, _ => none

/-- Counting scan over the remaining `fuel = nvp - j` slots (structural
recursion on the fuel keeps the scan kernel-computable; `triCountFrom_step`
restates the source loop's step). -/
def triCountAux (p : List Nat) : Nat → Nat → Nat
  | 0, _ => 0
  | fuel + 1, j => if p.getD j 0 = RC_MESH_NULL_IDX then 0 else 3 + triCountAux p fuel (j + 1)

/-- The inner scan of both extraction passes (Bridging.cpp lines 335-339 and
367-373): starting at slot `j` of a polygon's vertex-index row `p`, count 3
index entries per valid slot, stopping at the `RC_MESH_NULL_IDX` sentinel or
at the `nvp` slot limit. -/
def triCountFrom (p : List Nat) (nvp j : Nat) : Nat :=
  triCountAux p (nvp - j) j

/-- Emission scan over the remaining `fuel = nvp - j` slots (see
`emitFrom_step` for the source loop's step). -/
def emitAux (p : List Nat) : Nat → Nat → List Nat
  | 0, _ => []
  | fuel + 1, j =>
    if p.getD j 0 = RC_MESH_NULL_IDX then []
    else p.getD 0 0 :: p.getD (j - 1) 0 :: p.getD j 0 :: emitAux p fuel (j + 1)

/-- The triangle-fan emission scan (Bridging.cpp lines 367-373): starting at
slot `j`, emit the index triple `(p[0], p[j-1], p[j])` per valid slot,
stopping at the sentinel or the `nvp` limit. -/
def emitFrom (p : List Nat) (nvp j : Nat) : List Nat :=
  emitAux p (nvp - j) j

/-- The vertex-index row of polygon `i`: the first `nvp` of the `nvp*2`
unsigned shorts at `&pmesh->polys[i*nvp*2]` (the second `nvp` are neighbour
data, never read here). -/
def polyRow (pmesh : RcPolyMesh) (i : Nat) : List Nat :=
  (pmesh.polys.drop (i * pmesh.nvp * 2)).take pmesh.nvp

/-- Pass 1 of `bindingExtractVertsAndTriangles` (lines 331-340): the total
index-buffer size, accumulating `triCountFrom` row-scans over all polygons. -/
def sizePass (pmesh : RcPolyMesh) : Nat :=
  ((List.range pmesh.npolys).map (fun i => triCountFrom (polyRow pmesh i) pmesh.nvp 2)).sum

/-- Pass 2 of `bindingExtractVertsAndTriangles` (lines 356-362): vertex `i`
of the mesh transformed to world space and padded to 4 floats —
`(orig0 + x*cs, orig1 + (y+1)*ch + 0.1, orig2 + z*cs, 0)`. -/
def transformVertex (pmesh : RcPolyMesh) (i : Nat) : List ℚ :=
  [pmesh.bmin.1 + (pmesh.verts.getD (i * 3) 0 : ℚ) * pmesh.cs,
   pmesh.bmin.2.1 + ((pmesh.verts.getD (i * 3 + 1) 0 : ℚ) + 1) * pmesh.ch + 1 / 10,
   pmesh.bmin.2.2 + (pmesh.verts.getD (i * 3 + 2) 0 : ℚ) * pmesh.cs,
   0]

/-- The full vertex buffer written by pass 2: 4 floats per mesh vertex. -/
def vertPass (pmesh : RcPolyMesh) : List ℚ :=
  (List.range pmesh.nverts).flatMap (transformVertex pmesh)

/-- Pass 3 of `bindingExtractVertsAndTriangles` (lines 364-374): the full
index buffer, concatenating each polygon's fan emission. -/
def triPass (pmesh : RcPolyMesh) : List Nat :=
  (List.range pmesh.npolys).flatMap (fun i => emitFrom (polyRow pmesh i) pmesh.nvp 2)

/-- `BindingVertsAndTriangles` (Bridging.h): flat world-space vertex buffer
(4 floats per vertex) and flat `uint32` index buffer. -/
structure BindingVertsAndTriangles where
  nverts : Nat
  ntris : Nat
  verts : List ℚ
  triangles : List Nat
  deriving DecidableEq, Repr

/-- Oracle for the three heap allocations inside
`bindingExtractVertsAndTriangles`: the result struct calloc (unchecked in
the C code — a failure is dereferenced), the vertex-buffer calloc and the
index-buffer calloc. -/
structure ExtractOracle where
  callocRet : Bool
  callocVerts : Bool
  callocTris : Bool
  deriving DecidableEq, Repr

/-- Outcome of `bindingExtractVertsAndTriangles`: NULL dereference, NULL
return (an allocation failure the code checks), or the filled buffers. -/
inductive ExtractOutcome where
  | crash
  | nullReturn
  | ok (m : BindingVertsAndTriangles)
  deriving DecidableEq, Repr

/-- `bindingExtractVertsAndTriangles` (Bridging.cpp lines 314-376): size the
index buffer (pass 1), transform the vertices (pass 2), emit the triangle
fans (pass 3).  A NULL `poly_mesh`, or a failed result-struct calloc, is
dereferenced by the C code (crash); a failed buffer calloc frees what was
built and returns NULL. -/
def bindingExtractVertsAndTriangles (o : ExtractOracle) (bbr : BindingBulkResult) :
    ExtractOutcome :=
  match bbr.poly_mesh with
  | none => ExtractOutcome.crash
  | some pmesh =>
    if !o.callocRet then ExtractOutcome.crash
    else if !o.callocVerts then ExtractOutcome.nullReturn
    else
      let ntris := sizePass pmesh
      if !o.callocTris then ExtractOutcome.nullReturn
      else ExtractOutcome.ok
        { nverts := pmesh.nverts, ntris := ntris,
          verts := vertPass pmesh, triangles := triPass pmesh }

/-- Triangle-counting scan over the remaining `fuel = nvp - j` slots. -/
def fanTriAux (p : List Nat) : Nat → Nat → Nat
  | 0, _ => 0
  | fuel + 1, j => if p.getD j 0 = RC_MESH_NULL_IDX then 0 else 1 + fanTriAux p fuel (j + 1)

/-- Number of triangles the fan scan produces from slot `j` on: one per valid
slot (so `triCountFrom = 3 * fanTriCount`, the index-entry count). -/
def fanTriCount (p : List Nat) (nvp j : Nat) : Nat :=
  fanTriAux p (nvp - j) j

/-- Total number of triangles emitted by the extraction for a mesh. -/
def emittedTriangleCount (pmesh : RcPolyMesh) : Nat :=
  ((List.range pmesh.npolys).map (fun i => fanTriCount (polyRow pmesh i) pmesh.nvp 2)).sum

/-! ### Concrete fixtures used by witnesses and counterexamples -/

/-- A small concrete polygon mesh: one quad polygon (4 valid slots, then the
sentinel) over 4 vertices, `nvp = 6`. -/
def mesh0 : RcPolyMesh :=
  { nverts := 4, npolys := 1, nvp := 6,
    verts := [0, 0, 0, 1, 0, 0, 1, 0, 1, 0, 0, 1],
    polys := [0, 1, 2, 3, 65535, 65535, 0, 0, 0, 0, 0, 0],
    areas := [63], flags := [0],
    bmin := (0, 0, 0), bmax := (10, 10, 10), cs := 1, ch := 1 }

/-- A small concrete detail mesh. -/
def dmesh0 : RcPolyMeshDetail := { nmeshes := 1, nverts := 4, ntris := 2 }

/-- A concrete baking configuration. -/
def cfg0 : RcConfig :=
  { width := 10, height := 10, bmin := (0, 0, 0), bmax := (10, 10, 10), cs := 1, ch := 1,
    walkableSlopeAngle := 45, walkableHeight := 2, walkableClimb := 1, walkableRadius := 1,
    maxEdgeLen := 12, maxSimplificationError := 1, minRegionArea := 8, mergeRegionArea := 20,
    maxVertsPerPoly := 6, detailSampleDist := 6, detailSampleMaxError := 1 }

/-- The oracle on which every allocation and every external build succeeds. -/
def okOracle : BulkOracle :=
  { allocHf := true, callocResult := true, createHf := true, callocTriAreas := true,
    rasterize := true, allocChf := true, buildChf := true, buildLayer := true,
    buildMonotone := true, buildDistField := true, buildRegions := true, allocCset := true,
    buildContours := true, allocPolyMesh := true, buildPolyMesh := true, allocDetail := true,
    buildDetail := true, mesh := mesh0, dmesh := dmesh0 }

/-- `okOracle` with the initial `rcAllocHeightfield` failing. -/
def oracleNoHf : BulkOracle := { okOracle with allocHf := false }

/-- `okOracle` with `rcRasterizeTriangles` failing. -/
def oracleRastFail : BulkOracle := { okOracle with rasterize := false }

/-- A successful bake result over the concrete meshes. -/
def bulk0 : BindingBulkResult :=
  { code := BCodeStatus.ok, cs := 1, ch := 1, poly_mesh := some mesh0,
    poly_mesh_detail := some dmesh0, max_verts_per_poly := 6 }

/-- `bulk0` with `max_verts_per_poly` above the Detour capacity of 6. -/
def bulkOverCap : BindingBulkResult := { bulk0 with max_verts_per_poly := 7 }

/-- Extraction oracle on which all three callocs succeed. -/
def extractAllOk : ExtractOracle := { callocRet := true, callocVerts := true, callocTris := true }

/-- Detour oracle: serialization succeeds, the navmesh-object allocation fails. -/
def detourAllocFail : DetourOracle :=
  { createNavMeshData := true, navDataSize := 256, allocNavMesh := false }

/-- Detour oracle on which everything succeeds. -/
def detourAllOk : DetourOracle :=
  { createNavMeshData := true, navDataSize := 256, allocNavMesh := true }

/-- The extraction output on `bulk0`/`mesh0`, written out. -/
def extracted0 : BindingVertsAndTriangles :=
  { nverts := 4, ntris := 6,
    verts := [0, 11/10, 0, 0, 1, 11/10, 0, 0, 1, 11/10, 1, 0, 0, 11/10, 1, 0],
    triangles := [0, 1, 2, 0, 2, 3] }

/-! ### Extraction: helper lemmas -/

/-- The sizing scan's loop step, as in the C loop. -/
theorem triCountFrom_step (p : List Nat) (nvp j : Nat) :
    triCountFrom p nvp j =
      if j < nvp then
        if p.getD j 0 = RC_MESH_NULL_IDX then 0 else 3 + triCountFrom p nvp (j + 1)
      else 0 := by
  unfold triCountFrom
  by_cases h : j < nvp
  · rw [if_pos h, show nvp - j = (nvp - (j + 1)) + 1 by omega]
    rfl
  · rw [if_neg h, show nvp - j = 0 by omega]
    rfl

/-- The emission scan's loop step, as in the C loop. -/
theorem emitFrom_step (p : List Nat) (nvp j : Nat) :
    emitFrom p nvp j =
      if j < nvp then
        if p.getD j 0 = RC_MESH_NULL_IDX then []
        else p.getD 0 0 :: p.getD (j - 1) 0 :: p.getD j 0 :: emitFrom p nvp (j + 1)
      else [] := by
  unfold emitFrom
  by_cases h : j < nvp
  · rw [if_pos h, show nvp - j = (nvp - (j + 1)) + 1 by omega]
    rfl
  · rw [if_neg h, show nvp - j = 0 by omega]
    rfl

/-- The triangle-counting scan's loop step. -/
theorem fanTriCount_step (p : List Nat) (nvp j : Nat) :
    fanTriCount p nvp j =
      if j < nvp then
        if p.getD j 0 = RC_MESH_NULL_IDX then 0 else 1 + fanTriCount p nvp (j + 1)
      else 0 := by
  unfold fanTriCount
  by_cases h : j < nvp
  · rw [if_pos h, show nvp - j = (nvp - (j + 1)) + 1 by omega]
    rfl
  · rw [if_neg h, show nvp - j = 0 by omega]
    rfl

/-- The emission scan writes exactly as many index entries as the sizing scan
counts, slot for slot. -/
theorem length_emitFrom (p : List Nat) (nvp j : Nat) :
    (emitFrom p nvp j).length = triCountFrom p nvp j := by
  rw [emitFrom_step, triCountFrom_step]
  split_ifs with h1 h2
  · rfl
  · have ih := length_emitFrom p nvp (j + 1)
    simp [ih]
    omega
  · rfl
termination_by nvp - j

/-- The sizing scan counts 3 index entries per triangle. -/
theorem triCountFrom_eq_three_mul (p : List Nat) (nvp j : Nat) :
    triCountFrom p nvp j = 3 * fanTriCount p nvp j := by
  rw [triCountFrom_step, fanTriCount_step]
  split_ifs with h1 h2
  · rfl
  · have ih := triCountFrom_eq_three_mul p nvp (j + 1)
    omega
  · rfl
termination_by nvp - j

/-- The whole emitted index buffer is as long as pass 1 computed. -/
theorem length_triPass (pmesh : RcPolyMesh) : (triPass pmesh).length = sizePass pmesh := by
  unfold triPass sizePass
  rw [List.length_flatMap]
  congr 1
  simp [Function.comp, length_emitFrom]

/-- A `flatMap` of constant-length blocks has length `c * l.length`. -/
theorem length_flatMap_of_const {α β : Type} (l : List α) (f : α → List β) (c : Nat)
    (hf : ∀ a, (f a).length = c) : (l.flatMap f).length = c * l.length := by
  induction l with
  | nil => simp
  | cons a l ih =>
    rw [List.flatMap_cons, List.length_append, hf, ih, List.length_cons]
    ring

/-- Block `i` of a `flatMap` of constant-length-`c` blocks over `range n`. -/
theorem flatMap_range_segment {α : Type} (f : Nat → List α) (c n i : Nat)
    (hf : ∀ t, (f t).length = c) (hi : i < n) :
    (((List.range n).flatMap f).drop (c * i)).take c = f i := by
  have hn : n = i + 1 + (n - (i + 1)) := by omega
  rw [hn, List.range_add, List.range_succ, List.flatMap_append, List.flatMap_append]
  have hA : ((List.range i).flatMap f).length = c * i :=
    by rw [length_flatMap_of_const _ _ c hf, List.length_range]
  rw [List.flatMap_singleton, List.append_assoc, ← hA, List.drop_left]
  rw [← hf i, List.take_left]

/-- Scanning from slot `j` of a row whose first `k` slots are valid (and
which ends at `k`, by sentinel or by the `nvp` limit) emits exactly the fan
triangles `(p[0], p[j+t-1], p[j+t])` for `t < k - j`. -/
theorem emitFrom_eq_fan (p : List Nat) (nvp k j : Nat)
    (hknvp : k ≤ nvp) (hjk : j ≤ k)
    (hvalid : ∀ t, t < k → p.getD t 0 ≠ RC_MESH_NULL_IDX)
    (hend : k = nvp ∨ p.getD k 0 = RC_MESH_NULL_IDX) :
    emitFrom p nvp j = (List.range (k - j)).flatMap
      (fun t => [p.getD 0 0, p.getD (j + t - 1) 0, p.getD (j + t) 0]) := by
  rcases Nat.eq_or_lt_of_le hjk with heq | hlt
  · subst heq
    rw [Nat.sub_self]
    rw [emitFrom_step]
    rcases hend with h | h
    · rw [if_neg (by omega)]
      simp
    · by_cases hn : j < nvp
      · rw [if_pos hn, if_pos h]
        simp
      · rw [if_neg hn]
        simp
  · have hjnvp : j < nvp := Nat.lt_of_lt_of_le hlt hknvp
    have hvj : p.getD j 0 ≠ RC_MESH_NULL_IDX := hvalid j hlt
    have ih := emitFrom_eq_fan p nvp k (j + 1) hknvp hlt hvalid hend
    rw [emitFrom_step, if_pos hjnvp, if_neg hvj, ih]
    rw [show k - j = (k - (j + 1)) + 1 by omega, List.range_succ_eq_map]
    rw [List.flatMap_cons, List.flatMap_map]
    have harg : (fun t => [p.getD 0 0, p.getD (j + 1 + t - 1) 0, p.getD (j + 1 + t) 0]) =
        (fun t : Nat => [p.getD 0 0, p.getD (j + Nat.succ t - 1) 0, p.getD (j + Nat.succ t) 0]) := by
      funext t
      have e1 : j + 1 + t - 1 = j + Nat.succ t - 1 := by omega
      have e2 : j + 1 + t = j + Nat.succ t := by omega
      rw [e1, e2]
    rw [harg]
    simp
termination_by k - j

/-- Inversion: a successful extraction returns exactly the three-pass buffers. -/
theorem extract_ok_inv (o : ExtractOracle) (bbr : BindingBulkResult) (pmesh : RcPolyMesh)
    (m : BindingVertsAndTriangles)
    (hpm : bbr.poly_mesh = some pmesh)
    (hok : bindingExtractVertsAndTriangles o bbr = ExtractOutcome.ok m) :
    m = { nverts := pmesh.nverts, ntris := sizePass pmesh,
          verts := vertPass pmesh, triangles := triPass pmesh } := by
  unfold bindingExtractVertsAndTriangles at hok
  rw [hpm] at hok
  cases hr : o.callocRet <;> cases hv : o.callocVerts <;> cases ht : o.callocTris <;>
    rw [hr, hv, ht] at hok <;> simp at hok
  exact hok.symm

/-! ### C5 / C6 / C7 / C9 -/

/-- C5: for every polygon of the input mesh with `k ≥ 3` valid vertex slots
(valid: before the null-index sentinel and within the `nvp` limit), the
extraction emits exactly `k - 2` triangles `(p0, p_(j-1), p_j)` for
`j = 2 .. k-1`; every emitted index is one of that polygon's vertex indices,
every triangle's first index is the polygon's first vertex, and these
triangles appear in the emitted index buffer. -/
theorem C5_fan_triangulation (pmesh : RcPolyMesh) (i k : Nat)
    (hi : i < pmesh.npolys) (hk3 : 3 ≤ k) (hknvp : k ≤ pmesh.nvp)
    (hvalid : ∀ t, t < k → (polyRow pmesh i).getD t 0 ≠ RC_MESH_NULL_IDX)
    (hend : k = pmesh.nvp ∨ (polyRow pmesh i).getD k 0 = RC_MESH_NULL_IDX) :
    emitFrom (polyRow pmesh i) pmesh.nvp 2 =
      (List.range (k - 2)).flatMap (fun t =>
        [(polyRow pmesh i).getD 0 0, (polyRow pmesh i).getD (t + 1) 0,
         (polyRow pmesh i).getD (t + 2) 0]) ∧
    (emitFrom (polyRow pmesh i) pmesh.nvp 2).length = 3 * (k - 2) ∧
    (∀ x ∈ emitFrom (polyRow pmesh i) pmesh.nvp 2,
        ∃ t, t < k ∧ x = (polyRow pmesh i).getD t 0) ∧
    (∃ pre post, triPass pmesh =
        pre ++ emitFrom (polyRow pmesh i) pmesh.nvp 2 ++ post) := by
  have hfan := emitFrom_eq_fan (polyRow pmesh i) pmesh.nvp k 2 hknvp (by omega) hvalid hend
  have harg : (fun t => [(polyRow pmesh i).getD 0 0, (polyRow pmesh i).getD (2 + t - 1) 0,
        (polyRow pmesh i).getD (2 + t) 0]) =
      (fun t : Nat => [(polyRow pmesh i).getD 0 0, (polyRow pmesh i).getD (t + 1) 0,
        (polyRow pmesh i).getD (t + 2) 0]) := by
    funext t
    have e1 : 2 + t - 1 = t + 1 := by omega
    have e2 : 2 + t = t + 2 := by omega
    rw [e1, e2]
  rw [harg] at hfan
  refine ⟨hfan, ?_, ?_, ?_⟩
  · rw [hfan, length_flatMap_of_const (List.range (k - 2))
      (fun t => [(polyRow pmesh i).getD 0 0, (polyRow pmesh i).getD (t + 1) 0,
        (polyRow pmesh i).getD (t + 2) 0]) 3 (fun t => rfl), List.length_range]
  · intro x hx
    rw [hfan] at hx
    rw [List.mem_flatMap] at hx
    obtain ⟨t, ht, hxmem⟩ := hx
    rw [List.mem_range] at ht
    simp only [List.mem_cons, List.mem_singleton, List.not_mem_nil, or_false] at hxmem
    rcases hxmem with h | h | h
    · exact ⟨0, by omega, h⟩
    · exact ⟨t + 1, by omega, h⟩
    · exact ⟨t + 2, by omega, h⟩
  · obtain ⟨mm, hmm⟩ : ∃ mm, pmesh.npolys = i + 1 + mm := ⟨pmesh.npolys - (i + 1), by omega⟩
    refine ⟨(List.range i).flatMap (fun t => emitFrom (polyRow pmesh t) pmesh.nvp 2),
      ((List.range mm).map (fun t => i + 1 + t)).flatMap
        (fun t => emitFrom (polyRow pmesh t) pmesh.nvp 2), ?_⟩
    unfold triPass
    rw [hmm, List.range_add, List.range_succ, List.flatMap_append, List.flatMap_append,
      List.flatMap_singleton]

/-- C6: the index-buffer size computed by extraction's sizing pass equals the
number of index entries written by its emission pass, so the triangle buffer
is filled exactly to its allocated length. -/
theorem C6_sizing (o : ExtractOracle) (bbr : BindingBulkResult) (pmesh : RcPolyMesh)
    (m : BindingVertsAndTriangles)
    (hpm : bbr.poly_mesh = some pmesh)
    (hok : bindingExtractVertsAndTriangles o bbr = ExtractOutcome.ok m) :
    m.ntris = sizePass pmesh ∧ m.triangles = triPass pmesh ∧
    m.triangles.length = m.ntris := by
  have hm := extract_ok_inv o bbr pmesh m hpm hok
  subst hm
  exact ⟨rfl, rfl, length_triPass pmesh⟩

/-- C7: the `i`-th extracted vertex is the 4-float tuple
`(orig0 + x*cs, orig1 + (y+1)*ch + 0.1, orig2 + z*cs, 0)` built from the
mesh's integer grid coordinates, minimum bound and cell dimensions, with the
padding component always exactly 0. -/
theorem C7_vertex_transform (o : ExtractOracle) (bbr : BindingBulkResult) (pmesh : RcPolyMesh)
    (m : BindingVertsAndTriangles) (i : Nat)
    (hpm : bbr.poly_mesh = some pmesh)
    (hok : bindingExtractVertsAndTriangles o bbr = ExtractOutcome.ok m)
    (hi : i < pmesh.nverts) :
    (m.verts.drop (4 * i)).take 4 =
      [pmesh.bmin.1 + (pmesh.verts.getD (3 * i) 0 : ℚ) * pmesh.cs,
       pmesh.bmin.2.1 + ((pmesh.verts.getD (3 * i + 1) 0 : ℚ) + 1) * pmesh.ch + 1 / 10,
       pmesh.bmin.2.2 + (pmesh.verts.getD (3 * i + 2) 0 : ℚ) * pmesh.cs,
       0] := by
  have hm := extract_ok_inv o bbr pmesh m hpm hok
  subst hm
  show (((vertPass pmesh).drop (4 * i)).take 4) = _
  unfold vertPass
  rw [flatMap_range_segment (transformVertex pmesh) 4 pmesh.nverts i (fun t => rfl) hi]
  unfold transformVertex
  rw [Nat.mul_comm i 3]

/-- C9: the `ntris` field of the extracted mesh is three times the number of
emitted triangles (it counts index entries, not triangles), and the triangle
buffer holds exactly `ntris` entries. -/
theorem C9_ntris_counts_indices (o : ExtractOracle) (bbr : BindingBulkResult)
    (pmesh : RcPolyMesh) (m : BindingVertsAndTriangles)
    (hpm : bbr.poly_mesh = some pmesh)
    (hok : bindingExtractVertsAndTriangles o bbr = ExtractOutcome.ok m) :
    m.ntris = 3 * emittedTriangleCount pmesh ∧ m.triangles.length = m.ntris := by
  have hm := extract_ok_inv o bbr pmesh m hpm hok
  subst hm
  constructor
  · show sizePass pmesh = 3 * emittedTriangleCount pmesh
    unfold sizePass emittedTriangleCount
    rw [← List.sum_map_mul_left]
    congr 1
    simp [triCountFrom_eq_three_mul]
  · exact length_triPass pmesh

/-- The concrete extraction over `mesh0` evaluates to `extracted0`. -/
theorem extract_bulk0 :
    bindingExtractVertsAndTriangles extractAllOk bulk0 = ExtractOutcome.ok extracted0 := by
  have hsize : sizePass mesh0 = 6 := by decide
  have htris : triPass mesh0 = [0, 1, 2, 0, 2, 3] := by decide
  have hverts : vertPass mesh0 = extracted0.verts := by
    show (List.range 4).flatMap (transformVertex mesh0) = _
    rw [show List.range 4 = [0, 1, 2, 3] from by decide]
    norm_num [transformVertex, mesh0, extracted0]
  have hstep : bindingExtractVertsAndTriangles extractAllOk bulk0 =
      ExtractOutcome.ok
        { nverts := mesh0.nverts, ntris := sizePass mesh0, verts := vertPass mesh0,
          triangles := triPass mesh0 } := rfl
  rw [hstep, hsize, htris, hverts]
  rfl

/-- Witness for C5 at `mesh0`, polygon 0, which has 4 valid slots. -/
theorem C5_fan_triangulation_witness :
    (0 < mesh0.npolys ∧ 3 ≤ 4 ∧ 4 ≤ mesh0.nvp ∧
     (∀ t, t < 4 → (polyRow mesh0 0).getD t 0 ≠ RC_MESH_NULL_IDX) ∧
     (4 = mesh0.nvp ∨ (polyRow mesh0 0).getD 4 0 = RC_MESH_NULL_IDX)) ∧
    (emitFrom (polyRow mesh0 0) mesh0.nvp 2 =
      (List.range (4 - 2)).flatMap (fun t =>
        [(polyRow mesh0 0).getD 0 0, (polyRow mesh0 0).getD (t + 1) 0,
         (polyRow mesh0 0).getD (t + 2) 0]) ∧
     (emitFrom (polyRow mesh0 0) mesh0.nvp 2).length = 3 * (4 - 2) ∧
     (∀ x ∈ emitFrom (polyRow mesh0 0) mesh0.nvp 2,
        ∃ t, t < 4 ∧ x = (polyRow mesh0 0).getD t 0) ∧
     (∃ pre post, triPass mesh0 =
        pre ++ emitFrom (polyRow mesh0 0) mesh0.nvp 2 ++ post)) :=
  ⟨⟨by decide, by decide, by decide, by decide, by decide⟩,
   C5_fan_triangulation mesh0 0 4 (by decide) (by decide) (by decide) (by decide) (by decide)⟩

/-- Witness for C6 at the concrete extraction over `mesh0`. -/
theorem C6_sizing_witness :
    (bulk0.poly_mesh = some mesh0 ∧
     bindingExtractVertsAndTriangles extractAllOk bulk0 = ExtractOutcome.ok extracted0) ∧
    (extracted0.ntris = sizePass mesh0 ∧ extracted0.triangles = triPass mesh0 ∧
     extracted0.triangles.length = extracted0.ntris) :=
  ⟨⟨rfl, extract_bulk0⟩,
   C6_sizing extractAllOk bulk0 mesh0 extracted0 rfl extract_bulk0⟩

/-- Witness for C7 at vertex 2 of `mesh0` (grid (1,0,1) ↦ (1, 11/10, 1, 0)). -/
theorem C7_vertex_transform_witness :
    (bulk0.poly_mesh = some mesh0 ∧
     bindingExtractVertsAndTriangles extractAllOk bulk0 = ExtractOutcome.ok extracted0 ∧
     2 < mesh0.nverts) ∧
    (extracted0.verts.drop (4 * 2)).take 4 =
      [mesh0.bmin.1 + (mesh0.verts.getD (3 * 2) 0 : ℚ) * mesh0.cs,
       mesh0.bmin.2.1 + ((mesh0.verts.getD (3 * 2 + 1) 0 : ℚ) + 1) * mesh0.ch + 1 / 10,
       mesh0.bmin.2.2 + (mesh0.verts.getD (3 * 2 + 2) 0 : ℚ) * mesh0.cs, 0] :=
  ⟨⟨rfl, extract_bulk0, by decide⟩,
   C7_vertex_transform extractAllOk bulk0 mesh0 extracted0 2 rfl extract_bulk0 (by decide)⟩

/-- Witness for C9 at the concrete extraction over `mesh0`. -/
theorem C9_ntris_counts_indices_witness :
    (bulk0.poly_mesh = some mesh0 ∧
     bindingExtractVertsAndTriangles extractAllOk bulk0 = ExtractOutcome.ok extracted0) ∧
    (extracted0.ntris = 3 * emittedTriangleCount mesh0 ∧
     extracted0.triangles.length = extracted0.ntris) :=
  ⟨⟨rfl, extract_bulk0⟩,
   C9_ntris_counts_indices extractAllOk bulk0 mesh0 extracted0 rfl extract_bulk0⟩

/-! ### C4 / C10: bindingGenerateDetour -/

/-- C4: when the baked result's `max_verts_per_poly` exceeds the query
engine's fixed per-polygon vertex capacity, `bindingGenerateDetour` returns
the vertices-exceeded status immediately and before any work: the polygon
flags are not written (the mesh is unchanged), the serialization routine is
never invoked, and the caller's out-parameters are left unwritten. -/
theorem C4_vertex_capacity_guard (o : DetourOracle) (dtCap : Int) (data : BindingBulkResult)
    (ah ar ac : ℚ) (h : data.max_verts_per_poly > dtCap) :
    bindingGenerateDetour o dtCap data ah ar ac =
      some { status := BDetourStatus.errVertices, poly_mesh := data.poly_mesh,
             serializeCalls := 0, resultWritten := none, freedNavData := false } := by
  unfold bindingGenerateDetour
  rw [if_pos h]

/-- Witness for C4: `bulkOverCap` has `max_verts_per_poly = 7 > 6`. -/
theorem C4_vertex_capacity_guard_witness :
    bulkOverCap.max_verts_per_poly > 6 ∧
    bindingGenerateDetour detourAllOk 6 bulkOverCap 2 (3 : ℚ) (1 : ℚ) =
      some { status := BDetourStatus.errVertices, poly_mesh := bulkOverCap.poly_mesh,
             serializeCalls := 0, resultWritten := none, freedNavData := false } :=
  ⟨by decide, C4_vertex_capacity_guard detourAllOk 6 bulkOverCap 2 3 1 (by decide)⟩

/-- C10: when the capacity check passes and serialization succeeds but the
navmesh-object allocation fails, `bindingGenerateDetour` frees the built
blob, returns the alloc-navmesh error status, and leaves the caller's
result pointer/size unwritten (serialization having run exactly once and
the polygon flags having been set to 1). -/
theorem C10_alloc_navmesh_failure (o : DetourOracle) (dtCap : Int) (data : BindingBulkResult)
    (pm : RcPolyMesh) (dm : RcPolyMeshDetail) (ah ar ac : ℚ)
    (hcap : ¬ data.max_verts_per_poly > dtCap)
    (hpm : data.poly_mesh = some pm) (hdm : data.poly_mesh_detail = some dm)
    (hser : o.createNavMeshData = true) (halloc : o.allocNavMesh = false) :
    bindingGenerateDetour o dtCap data ah ar ac =
      some { status := BDetourStatus.errAllocNavmesh,
             poly_mesh := some { pm with flags := List.replicate pm.npolys 1 },
             serializeCalls := 1, resultWritten := none, freedNavData := true } := by
  unfold bindingGenerateDetour
  rw [if_neg hcap, hpm, hdm]
  simp [hser, halloc]

/-- Witness for C10 at `bulk0` with the alloc-failing Detour oracle. -/
theorem C10_alloc_navmesh_failure_witness :
    (¬ bulk0.max_verts_per_poly > 6 ∧ bulk0.poly_mesh = some mesh0 ∧
     bulk0.poly_mesh_detail = some dmesh0 ∧
     detourAllocFail.createNavMeshData = true ∧ detourAllocFail.allocNavMesh = false) ∧
    bindingGenerateDetour detourAllocFail 6 bulk0 2 (3 : ℚ) (1 : ℚ) =
      some { status := BDetourStatus.errAllocNavmesh,
             poly_mesh := some { mesh0 with flags := List.replicate mesh0.npolys 1 },
             serializeCalls := 1, resultWritten := none, freedNavData := true } :=
  ⟨⟨by decide, rfl, rfl, rfl, rfl⟩,
   C10_alloc_navmesh_failure detourAllocFail 6 bulk0 mesh0 dmesh0 2 3 1
     (by decide) rfl rfl rfl rfl⟩

/-! ### Pipeline trace helpers -/

/-- Membership in a conditional singleton. -/
theorem mem_ite_nil {α : Type} (a x : α) (c : Prop) [Decidable c] :
    (a ∈ if c then [x] else []) ↔ c ∧ a = x := by
  split_ifs with h <;> simp [h]

/-- Events of the `exit1` cleanup. -/
theorem exit1_events (st : PipeState) :
    (exit1 st).events = st.events ++ (if st.hf = true then [Event.free Res.hf] else []) := by
  unfold exit1
  split_ifs with h <;> simp [h]

/-- Events of the `exit2` cleanup. -/
theorem exit2_events (st : PipeState) :
    (exit2 st).events = st.events ++ (if st.chf = true then [Event.free Res.chf] else []) ++
      (if st.hf = true then [Event.free Res.hf] else []) := by
  unfold exit2
  split_ifs with h <;> rw [exit1_events] <;> simp_all

/-- Events of the `exit3` cleanup. -/
theorem exit3_events (st : PipeState) :
    (exit3 st).events = st.events ++ (if st.cset = true then [Event.free Res.cset] else []) ++
      (if st.chf = true then [Event.free Res.chf] else []) ++
      (if st.hf = true then [Event.free Res.hf] else []) := by
  unfold exit3
  split_ifs with h <;> rw [exit2_events] <;> simp_all

/-- Events of the `exit4` cleanup. -/
theorem exit4_events (st : PipeState) :
    (exit4 st).events = st.events ++ (if st.pm = true then [Event.free Res.polyMesh] else []) ++
      (if st.cset = true then [Event.free Res.cset] else []) ++
      (if st.chf = true then [Event.free Res.chf] else []) ++
      (if st.hf = true then [Event.free Res.hf] else []) := by
  unfold exit4
  split_ifs with h <;> rw [exit3_events] <;> simp_all

/-- Events of the `exit5` cleanup. -/
theorem exit5_events (st : PipeState) :
    (exit5 st).events = st.events ++
      (if st.dm = true then [Event.free Res.detailMesh] else []) ++
      (if st.pm = true then [Event.free Res.polyMesh] else []) ++
      (if st.cset = true then [Event.free Res.cset] else []) ++
      (if st.chf = true then [Event.free Res.chf] else []) ++
      (if st.hf = true then [Event.free Res.hf] else []) := by
  unfold exit5
  split_ifs with h <;> rw [exit4_events] <;> simp_all

/-- The post-partition stages only append to the incoming trace. -/
theorem bulkAfterPartition_events_ext (o : BulkOracle) (cfg : RcConfig) (st : PipeState) :
    (bulkAfterPartition o cfg st).2 =
      st.events ++ (bulkAfterPartition o cfg st).2.drop st.events.length := by
  unfold bulkAfterPartition
  split_ifs <;>
    simp [emit, exit2_events, exit3_events, exit4_events, exit5_events, List.append_assoc,
      List.drop_left]

/-- Whatever was already in the trace stays in it through the post-partition
stages. -/
theorem mem_bulkAfterPartition_of_mem (o : BulkOracle) (cfg : RcConfig) (st : PipeState)
    (e : Event) (h : e ∈ st.events) : e ∈ (bulkAfterPartition o cfg st).2 := by
  rw [bulkAfterPartition_events_ext]
  exact List.mem_append_left _ h

/-- The only stage calls the post-partition phase can add are contour,
polygon-mesh and detail-mesh builds. -/
theorem stage_mem_bulkAfterPartition (o : BulkOracle) (cfg : RcConfig) (st : PipeState)
    (s : StageCall) (h : Event.stage s ∈ (bulkAfterPartition o cfg st).2) :
    Event.stage s ∈ st.events ∨ s = StageCall.buildContours ∨ s = StageCall.buildPolyMesh ∨
      s = StageCall.buildPolyMeshDetail := by
  unfold bulkAfterPartition at h
  split_ifs at h <;>
    simp [emit, exit2_events, exit3_events, exit4_events, exit5_events, List.mem_append,
      mem_ite_nil] at h <;>
    tauto

/-- Every branch of the post-partition phase returns an envelope whose status
matches its mesh pointers (non-ok statuses carry null meshes, the ok status
carries both meshes). -/
theorem bulkAfterPartition_returns (o : BulkOracle) (cfg : RcConfig) (st : PipeState) :
    ∃ r, (bulkAfterPartition o cfg st).1 = BulkOutcome.returned r ∧
      ((r.code = BCodeStatus.ok ∧ r.poly_mesh.isSome = true ∧
        r.poly_mesh_detail.isSome = true) ∨
       (r.code ≠ BCodeStatus.ok ∧ r.poly_mesh = none ∧ r.poly_mesh_detail = none)) := by
  unfold bulkAfterPartition
  split_ifs <;>
    first
    | exact ⟨_, rfl, Or.inl ⟨rfl, rfl, rfl⟩⟩
    | exact ⟨_, rfl, Or.inr ⟨by simp [failResult], rfl, rfl⟩⟩

/-- If the post-partition phase returns the ok status, the result is the
success envelope and both the compact heightfield and the contour set have
been freed. -/
theorem bulkAfterPartition_ok (o : BulkOracle) (cfg : RcConfig) (st : PipeState)
    (r : BindingBulkResult)
    (h : (bulkAfterPartition o cfg st).1 = BulkOutcome.returned r)
    (hok : r.code = BCodeStatus.ok) :
    r = { code := BCodeStatus.ok, cs := cfg.cs, ch := cfg.ch, poly_mesh := some o.mesh,
          poly_mesh_detail := some o.dmesh, max_verts_per_poly := cfg.maxVertsPerPoly } ∧
    Event.free Res.chf ∈ (bulkAfterPartition o cfg st).2 ∧
    Event.free Res.cset ∈ (bulkAfterPartition o cfg st).2 := by
  unfold bulkAfterPartition at h ⊢
  split_ifs at h ⊢ <;> simp only [BulkOutcome.returned.injEq] at h <;> subst h <;>
    first
    | (refine ⟨rfl, ?_, ?_⟩ <;> simp [emit, List.mem_append])
    | simp [failResult] at hok

/-- Every branch of the partition phase only appends to the incoming trace. -/
theorem bulkPartitionPhase_events_ext (o : BulkOracle) (cfg : RcConfig) (flags : Int)
    (st : PipeState) :
    (bulkPartitionPhase o cfg flags st).2 =
      st.events ++ (bulkPartitionPhase o cfg flags st).2.drop st.events.length := by
  simp only [bulkPartitionPhase]
  split_ifs <;>
    (try rw [bulkAfterPartition_events_ext]) <;>
    simp [emit, exit2_events, List.append_assoc, List.drop_left]

/-- Every branch of the partition phase returns an envelope whose status
matches its mesh pointers. -/
theorem bulkPartitionPhase_returns (o : BulkOracle) (cfg : RcConfig) (flags : Int)
    (st : PipeState) :
    ∃ r, (bulkPartitionPhase o cfg flags st).1 = BulkOutcome.returned r ∧
      ((r.code = BCodeStatus.ok ∧ r.poly_mesh.isSome = true ∧
        r.poly_mesh_detail.isSome = true) ∨
       (r.code ≠ BCodeStatus.ok ∧ r.poly_mesh = none ∧ r.poly_mesh_detail = none)) := by
  simp only [bulkPartitionPhase]
  split_ifs <;>
    first
    | exact bulkAfterPartition_returns o cfg _
    | exact ⟨_, rfl, Or.inr ⟨by simp [failResult], rfl, rfl⟩⟩

/-- If the partition phase returns the ok status, the result is the success
envelope and the compact heightfield and contour set have been freed. -/
theorem bulkPartitionPhase_ok (o : BulkOracle) (cfg : RcConfig) (flags : Int)
    (st : PipeState) (r : BindingBulkResult)
    (h : (bulkPartitionPhase o cfg flags st).1 = BulkOutcome.returned r)
    (hok : r.code = BCodeStatus.ok) :
    r = { code := BCodeStatus.ok, cs := cfg.cs, ch := cfg.ch, poly_mesh := some o.mesh,
          poly_mesh_detail := some o.dmesh, max_verts_per_poly := cfg.maxVertsPerPoly } ∧
    Event.free Res.chf ∈ (bulkPartitionPhase o cfg flags st).2 ∧
    Event.free Res.cset ∈ (bulkPartitionPhase o cfg flags st).2 := by
  simp only [bulkPartitionPhase] at h ⊢
  split_ifs at h ⊢ <;>
    first
    | exact bulkAfterPartition_ok o cfg _ r h hok
    | (simp only [BulkOutcome.returned.injEq] at h
       subst h
       simp [failResult] at hok)

/-- When the seven steps before partitioning all succeed, `bindingRunBulk`
hands the partition phase a state whose trace holds only the pre-partition
stage calls and ends with the compact build, the heightfield release and the
erosion, with only the compact heightfield and the (leaked) triangle-area
buffer still held. -/
theorem bindingRunBulk_reaches_partition (o : BulkOracle) (cfg : RcConfig) (flags : Int)
    (ntris : Nat) (h1 : o.allocHf = true) (h2 : o.callocResult = true)
    (h3 : o.createHf = true) (h4 : o.callocTriAreas = true) (h5 : o.rasterize = true)
    (h6 : o.allocChf = true) (h7 : o.buildChf = true) :
    ∃ st : PipeState,
      bindingRunBulk o cfg flags ntris = bulkPartitionPhase o cfg flags st ∧
      st.hf = false ∧ st.chf = true ∧ st.cset = false ∧ st.pm = false ∧ st.dm = false ∧
      (∀ s : StageCall, Event.stage s ∈ st.events →
        s = StageCall.createHeightfield ∨ s = StageCall.markWalkableTriangles ∨
        s = StageCall.rasterizeTriangles ∨ s = StageCall.filterLowHangingWalkableObstacles ∨
        s = StageCall.filterLedgeSpans ∨ s = StageCall.filterWalkableLowHeightSpans ∨
        s = StageCall.buildCompactHeightfield ∨ s = StageCall.erodeWalkableArea) ∧
      (∃ t1, st.events = t1 ++ [Event.stage StageCall.buildCompactHeightfield,
        Event.free Res.hf, Event.stage StageCall.erodeWalkableArea]) := by
  refine ⟨{ hf := false, chf := true, cset := false, pm := false, dm := false, triAreas := true,
            events := [Event.alloc Res.hf, Event.stage StageCall.createHeightfield,
              Event.alloc Res.triAreas, Event.stage StageCall.markWalkableTriangles,
              Event.stage StageCall.rasterizeTriangles] ++
              (if flags.land FILTER_LOW_HANGING_OBSTACLES ≠ 0 then
                [Event.stage StageCall.filterLowHangingWalkableObstacles] else []) ++
              (if flags.land FILTER_LEDGE_SPANS ≠ 0 then
                [Event.stage StageCall.filterLedgeSpans] else []) ++
              (if flags.land FILTER_WALKABLE_LOW_HEIGHT_SPANS ≠ 0 then
                [Event.stage StageCall.filterWalkableLowHeightSpans] else []) ++
              [Event.alloc Res.chf, Event.stage StageCall.buildCompactHeightfield,
               Event.free Res.hf, Event.stage StageCall.erodeWalkableArea] },
    ?_, rfl, rfl, rfl, rfl, rfl, ?_, ?_⟩
  · unfold bindingRunBulk
    simp only [h1, h2, h3, h4, h5, h6, h7, Bool.not_true, Bool.false_eq_true, if_false, emit]
    split_ifs <;> simp_all [emit, List.append_assoc]
  · intro s hs
    simp only [List.mem_append, mem_ite_nil, List.mem_cons, List.mem_singleton,
      List.not_mem_nil, or_false, Event.stage.injEq] at hs
    tauto
  · exact ⟨[Event.alloc Res.hf, Event.stage StageCall.createHeightfield,
      Event.alloc Res.triAreas, Event.stage StageCall.markWalkableTriangles,
      Event.stage StageCall.rasterizeTriangles] ++
      (if flags.land FILTER_LOW_HANGING_OBSTACLES ≠ 0 then
        [Event.stage StageCall.filterLowHangingWalkableObstacles] else []) ++
      (if flags.land FILTER_LEDGE_SPANS ≠ 0 then
        [Event.stage StageCall.filterLedgeSpans] else []) ++
      (if flags.land FILTER_WALKABLE_LOW_HEIGHT_SPANS ≠ 0 then
        [Event.stage StageCall.filterWalkableLowHeightSpans] else []) ++
      [Event.alloc Res.chf], by simp [List.append_assoc]⟩

/-! ### C1 / C2 / C3 / C8: bindingRunBulk -/

/-- C1 counterexample: the claim "a failed bake still returns an envelope
carrying its status, never no envelope at all" is false — when the initial
`rcAllocHeightfield` fails (Bridging.cpp lines 46-49) the function returns
NULL, so there is no envelope whose status/mesh pointers could even be
inspected. -/
theorem C1_counterexample :
    ¬ ∀ (o : BulkOracle) (cfg : RcConfig) (flags : Int) (ntris : Nat),
        ∃ r, (bindingRunBulk o cfg flags ntris).1 = BulkOutcome.returned r ∧
          ((r.code = BCodeStatus.ok ∧ r.poly_mesh.isSome = true ∧
            r.poly_mesh_detail.isSome = true) ∨
           (r.code ≠ BCodeStatus.ok ∧ r.poly_mesh = none ∧ r.poly_mesh_detail = none)) := by
  intro hclaim
  obtain ⟨r, hr, -⟩ := hclaim oracleNoHf cfg0 0 0
  have hnull : (bindingRunBulk oracleNoHf cfg0 0 0).1 = BulkOutcome.nullReturn := rfl
  rw [hnull] at hr
  exact BulkOutcome.noConfusion hr

/-- C1 (amended): provided the initial heightfield allocation and the
result-envelope allocation succeed, `bindingRunBulk` returns an envelope
satisfying exactly one of: status ok with both meshes non-null, or status
non-ok with both meshes null. -/
theorem C1_envelope_exactly_one (o : BulkOracle) (cfg : RcConfig) (flags : Int) (ntris : Nat)
    (h1 : o.allocHf = true) (h2 : o.callocResult = true) :
    ∃ r, (bindingRunBulk o cfg flags ntris).1 = BulkOutcome.returned r ∧
      ((r.code = BCodeStatus.ok ∧ r.poly_mesh.isSome = true ∧
        r.poly_mesh_detail.isSome = true) ∨
       (r.code ≠ BCodeStatus.ok ∧ r.poly_mesh = none ∧ r.poly_mesh_detail = none)) := by
  cases hc : o.createHf with
  | false =>
    exact ⟨failResult cfg BCodeStatus.errUnknown, by simp [bindingRunBulk, h1, h2, hc],
      Or.inr ⟨by simp [failResult], rfl, rfl⟩⟩
  | true =>
    cases hta : o.callocTriAreas with
    | false =>
      exact ⟨failResult cfg BCodeStatus.errMemory, by simp [bindingRunBulk, h1, h2, hc, hta],
        Or.inr ⟨by simp [failResult], rfl, rfl⟩⟩
    | true =>
      cases hra : o.rasterize with
      | false =>
        exact ⟨failResult cfg BCodeStatus.errRasterize,
          by simp [bindingRunBulk, h1, h2, hc, hta, hra],
          Or.inr ⟨by simp [failResult], rfl, rfl⟩⟩
      | true =>
        cases hchf : o.allocChf with
        | false =>
          exact ⟨failResult cfg BCodeStatus.errMemory,
            by simp [bindingRunBulk, h1, h2, hc, hta, hra, hchf],
            Or.inr ⟨by simp [failResult], rfl, rfl⟩⟩
        | true =>
          cases hbchf : o.buildChf with
          | false =>
            exact ⟨failResult cfg BCodeStatus.errBuildCompactHeightfield,
              by simp [bindingRunBulk, h1, h2, hc, hta, hra, hchf, hbchf],
              Or.inr ⟨by simp [failResult], rfl, rfl⟩⟩
          | true =>
            obtain ⟨st, heq, -, -, -, -, -, -, -⟩ :=
              bindingRunBulk_reaches_partition o cfg flags ntris h1 h2 hc hta hra hchf hbchf
            rw [heq]
            exact bulkPartitionPhase_returns o cfg flags st

/-- Witness for C1 at the all-success oracle. -/
theorem C1_envelope_exactly_one_witness :
    (okOracle.allocHf = true ∧ okOracle.callocResult = true) ∧
    ∃ r, (bindingRunBulk okOracle cfg0 0 0).1 = BulkOutcome.returned r ∧
      ((r.code = BCodeStatus.ok ∧ r.poly_mesh.isSome = true ∧
        r.poly_mesh_detail.isSome = true) ∨
       (r.code ≠ BCodeStatus.ok ∧ r.poly_mesh = none ∧ r.poly_mesh_detail = none)) :=
  ⟨⟨rfl, rfl⟩, C1_envelope_exactly_one okOracle cfg0 0 0 rfl rfl⟩

/-- C2 (leak): a concrete run in which rasterization fails after the
per-triangle area buffer was allocated: the failure envelope carries the
rasterize status, the five staged resources are balanced (here the
heightfield, the only one allocated, is freed exactly once), but the
`tri_areas` buffer is allocated and never freed — the C code has no
`free(tri_areas)` on any path, contradicting the release-everything claim. -/
theorem C2_triareas_never_freed :
    (bindingRunBulk oracleRastFail cfg0 0 3).1 =
      BulkOutcome.returned (failResult cfg0 BCodeStatus.errRasterize) ∧
    (bindingRunBulk oracleRastFail cfg0 0 3).2.count (Event.alloc Res.triAreas) = 1 ∧
    (bindingRunBulk oracleRastFail cfg0 0 3).2.count (Event.free Res.triAreas) = 0 ∧
    (bindingRunBulk oracleRastFail cfg0 0 3).2.count (Event.alloc Res.hf) = 1 ∧
    (bindingRunBulk oracleRastFail cfg0 0 3).2.count (Event.free Res.hf) = 1 ∧
    (bindingRunBulk oracleRastFail cfg0 0 3).2.count (Event.alloc Res.chf) = 0 ∧
    (bindingRunBulk oracleRastFail cfg0 0 3).2.count (Event.alloc Res.cset) = 0 ∧
    (bindingRunBulk oracleRastFail cfg0 0 3).2.count (Event.alloc Res.polyMesh) = 0 ∧
    (bindingRunBulk oracleRastFail cfg0 0 3).2.count (Event.alloc Res.detailMesh) = 0 :=
  ⟨rfl, by decide, by decide, by decide, by decide, by decide, by decide, by decide, by decide⟩

/-- C3 counterexample: with both partition bits set (`flags = 24`) a fully
successful bake invokes no partitioning strategy at all — the if/else chain
has no matching branch — refuting "runs exactly one of the three strategies
for every flags value". -/
theorem C3_counterexample :
    (bindingRunBulk okOracle cfg0 24 0).2.count
      (Event.stage StageCall.buildLayerRegions) = 0 ∧
    (bindingRunBulk okOracle cfg0 24 0).2.count
      (Event.stage StageCall.buildRegionsMonotone) = 0 ∧
    (bindingRunBulk okOracle cfg0 24 0).2.count (Event.stage StageCall.buildRegions) = 0 ∧
    (bindingRunBulk okOracle cfg0 24 0).2.count
      (Event.stage StageCall.buildDistanceField) = 0 ∧
    (bindingRunBulk okOracle cfg0 24 0).1 = BulkOutcome.returned
      { code := BCodeStatus.ok, cs := cfg0.cs, ch := cfg0.ch, poly_mesh := some mesh0,
        poly_mesh_detail := some dmesh0, max_verts_per_poly := cfg0.maxVertsPerPoly } :=
  ⟨by decide, by decide, by decide, by decide, rfl⟩

/-- C3 (amended): in every execution reaching the partition step, the 2-bit
partition field alone selects the strategy: field 0 (the unset default) runs
exactly the layer strategy, the monotone pattern exactly the monotone
strategy, and the watershed pattern builds the distance field first (whose
failure yields the distinct distance-field status and prevents the region
build) and then exactly the watershed strategy; any other field value (which
for `flags & 24` can only be the both-bits pattern 24) invokes no strategy
at all. -/
theorem C3_partition_selector (o : BulkOracle) (cfg : RcConfig) (flags : Int) (ntris : Nat)
    (h1 : o.allocHf = true) (h2 : o.callocResult = true) (h3 : o.createHf = true)
    (h4 : o.callocTriAreas = true) (h5 : o.rasterize = true) (h6 : o.allocChf = true)
    (h7 : o.buildChf = true) :
    (flags.land PARTITION_MASK = PARTITION_LAYER →
      Event.stage StageCall.buildLayerRegions ∈ (bindingRunBulk o cfg flags ntris).2 ∧
      Event.stage StageCall.buildRegionsMonotone ∉ (bindingRunBulk o cfg flags ntris).2 ∧
      Event.stage StageCall.buildRegions ∉ (bindingRunBulk o cfg flags ntris).2 ∧
      Event.stage StageCall.buildDistanceField ∉ (bindingRunBulk o cfg flags ntris).2) ∧
    (flags.land PARTITION_MASK = PARTITION_MONOTONE →
      Event.stage StageCall.buildRegionsMonotone ∈ (bindingRunBulk o cfg flags ntris).2 ∧
      Event.stage StageCall.buildLayerRegions ∉ (bindingRunBulk o cfg flags ntris).2 ∧
      Event.stage StageCall.buildRegions ∉ (bindingRunBulk o cfg flags ntris).2 ∧
      Event.stage StageCall.buildDistanceField ∉ (bindingRunBulk o cfg flags ntris).2) ∧
    (flags.land PARTITION_MASK = PARTITION_WATERSHED →
      Event.stage StageCall.buildDistanceField ∈ (bindingRunBulk o cfg flags ntris).2 ∧
      Event.stage StageCall.buildLayerRegions ∉ (bindingRunBulk o cfg flags ntris).2 ∧
      Event.stage StageCall.buildRegionsMonotone ∉ (bindingRunBulk o cfg flags ntris).2 ∧
      (o.buildDistField = true →
        Event.stage StageCall.buildRegions ∈ (bindingRunBulk o cfg flags ntris).2) ∧
      (o.buildDistField = false →
        Event.stage StageCall.buildRegions ∉ (bindingRunBulk o cfg flags ntris).2 ∧
        (bindingRunBulk o cfg flags ntris).1 =
          BulkOutcome.returned (failResult cfg BCodeStatus.errBuildDistanceField))) ∧
    ((flags.land PARTITION_MASK ≠ PARTITION_LAYER ∧
      flags.land PARTITION_MASK ≠ PARTITION_MONOTONE ∧
      flags.land PARTITION_MASK ≠ PARTITION_WATERSHED) →
      Event.stage StageCall.buildLayerRegions ∉ (bindingRunBulk o cfg flags ntris).2 ∧
      Event.stage StageCall.buildRegionsMonotone ∉ (bindingRunBulk o cfg flags ntris).2 ∧
      Event.stage StageCall.buildRegions ∉ (bindingRunBulk o cfg flags ntris).2 ∧
      Event.stage StageCall.buildDistanceField ∉ (bindingRunBulk o cfg flags ntris).2) := by
  obtain ⟨st, heq, hhf, hchf, hcset, hpm, hdm, hstages, -⟩ :=
    bindingRunBulk_reaches_partition o cfg flags ntris h1 h2 h3 h4 h5 h6 h7
  rw [heq]
  have hL : Event.stage StageCall.buildLayerRegions ∉ st.events := by
    intro hmem
    rcases hstages _ hmem with h | h | h | h | h | h | h | h <;> simp_all
  have hM : Event.stage StageCall.buildRegionsMonotone ∉ st.events := by
    intro hmem
    rcases hstages _ hmem with h | h | h | h | h | h | h | h <;> simp_all
  have hR : Event.stage StageCall.buildRegions ∉ st.events := by
    intro hmem
    rcases hstages _ hmem with h | h | h | h | h | h | h | h <;> simp_all
  have hD : Event.stage StageCall.buildDistanceField ∉ st.events := by
    intro hmem
    rcases hstages _ hmem with h | h | h | h | h | h | h | h <;> simp_all
  have hmememit : ∀ (e : Event) (st' : PipeState) (y : Event), e ∈ st'.events →
      e ∈ (emit st' y).events := by
    intro e st' y he
    simp [emit, he]
  have hnotemit : ∀ (x y : StageCall) (st' : PipeState), x ≠ y →
      Event.stage x ∉ st'.events → Event.stage x ∉ (emit st' (Event.stage y)).events := by
    intro x y st' hxy hni hmem
    simp [emit] at hmem
    rcases hmem with h | h
    · exact hni h
    · exact hxy h
  have hmemexit : ∀ (e : Event) (st' : PipeState), e ∈ st'.events → e ∈ (exit2 st').events := by
    intro e st' he
    rw [exit2_events]
    simp [List.mem_append, he]
  have hnotexit : ∀ (x : StageCall) (st' : PipeState), Event.stage x ∉ st'.events →
      Event.stage x ∉ (exit2 st').events := by
    intro x st' hni hmem
    rw [exit2_events] at hmem
    simp [List.mem_append, mem_ite_nil] at hmem
    exact hni hmem
  have hmemAP : ∀ (e : Event) (st' : PipeState), e ∈ st'.events →
      e ∈ (bulkAfterPartition o cfg st').2 :=
    fun e st' he => mem_bulkAfterPartition_of_mem o cfg st' e he
  have hnotAP : ∀ (x : StageCall) (st' : PipeState),
      (x = StageCall.buildLayerRegions ∨ x = StageCall.buildRegionsMonotone ∨
       x = StageCall.buildRegions ∨ x = StageCall.buildDistanceField) →
      Event.stage x ∉ st'.events → Event.stage x ∉ (bulkAfterPartition o cfg st').2 := by
    intro x st' hx hni hmem
    rcases stage_mem_bulkAfterPartition o cfg st' x hmem with hin | h | h | h
    · exact hni hin
    all_goals (rcases hx with h' | h' | h' | h' <;> simp_all)
  refine ⟨?_, ?_, ?_, ?_⟩
  · intro hp
    have hsel : bulkPartitionPhase o cfg flags st =
        (if !o.buildLayer then
          (BulkOutcome.returned (failResult cfg BCodeStatus.errBuildLayerRegions),
            (exit2 (emit st (Event.stage StageCall.buildLayerRegions))).events)
         else bulkAfterPartition o cfg (emit st (Event.stage StageCall.buildLayerRegions))) := by
      simp only [bulkPartitionPhase, hp]
      norm_num [PARTITION_LAYER, PARTITION_MONOTONE, PARTITION_WATERSHED]
    rw [hsel]
    cases hb : o.buildLayer with
    | false =>
      rw [if_pos (show (!false) = true from rfl)]
      exact ⟨hmemexit _ _ (by simp [emit]),
        hnotexit _ _ (hnotemit _ _ _ (by decide) hM),
        hnotexit _ _ (hnotemit _ _ _ (by decide) hR),
        hnotexit _ _ (hnotemit _ _ _ (by decide) hD)⟩
    | true =>
      rw [if_neg (show ¬(!true) = true from by decide)]
      exact ⟨hmemAP _ _ (by simp [emit]),
        hnotAP _ _ (Or.inr (Or.inl rfl)) (hnotemit _ _ _ (by decide) hM),
        hnotAP _ _ (Or.inr (Or.inr (Or.inl rfl))) (hnotemit _ _ _ (by decide) hR),
        hnotAP _ _ (Or.inr (Or.inr (Or.inr rfl))) (hnotemit _ _ _ (by decide) hD)⟩
  · intro hp
    have hsel : bulkPartitionPhase o cfg flags st =
        (if !o.buildMonotone then
          (BulkOutcome.returned (failResult cfg BCodeStatus.errBuildRegionsMonotone),
            (exit2 (emit st (Event.stage StageCall.buildRegionsMonotone))).events)
         else bulkAfterPartition o cfg (emit st (Event.stage StageCall.buildRegionsMonotone))) := by
      simp only [bulkPartitionPhase, hp]
      norm_num [PARTITION_LAYER, PARTITION_MONOTONE, PARTITION_WATERSHED]
    rw [hsel]
    cases hb : o.buildMonotone with
    | false =>
      rw [if_pos (show (!false) = true from rfl)]
      exact ⟨hmemexit _ _ (by simp [emit]),
        hnotexit _ _ (hnotemit _ _ _ (by decide) hL),
        hnotexit _ _ (hnotemit _ _ _ (by decide) hR),
        hnotexit _ _ (hnotemit _ _ _ (by decide) hD)⟩
    | true =>
      rw [if_neg (show ¬(!true) = true from by decide)]
      exact ⟨hmemAP _ _ (by simp [emit]),
        hnotAP _ _ (Or.inl rfl) (hnotemit _ _ _ (by decide) hL),
        hnotAP _ _ (Or.inr (Or.inr (Or.inl rfl))) (hnotemit _ _ _ (by decide) hR),
        hnotAP _ _ (Or.inr (Or.inr (Or.inr rfl))) (hnotemit _ _ _ (by decide) hD)⟩
  · intro hp
    have hsel : bulkPartitionPhase o cfg flags st =
        (if !o.buildDistField then
          (BulkOutcome.returned (failResult cfg BCodeStatus.errBuildDistanceField),
            (exit2 (emit st (Event.stage StageCall.buildDistanceField))).events)
         else
           if !o.buildRegions then
             (BulkOutcome.returned (failResult cfg BCodeStatus.errBuildRegions),
               (exit2 (emit (emit st (Event.stage StageCall.buildDistanceField))
                 (Event.stage StageCall.buildRegions))).events)
           else bulkAfterPartition o cfg (emit (emit st (Event.stage StageCall.buildDistanceField))
             (Event.stage StageCall.buildRegions))) := by
      simp only [bulkPartitionPhase, hp]
      norm_num [PARTITION_LAYER, PARTITION_MONOTONE, PARTITION_WATERSHED]
    rw [hsel]
    cases hdf : o.buildDistField with
    | false =>
      rw [if_pos (show (!false) = true from rfl)]
      refine ⟨hmemexit _ _ (by simp [emit]),
        hnotexit _ _ (hnotemit _ _ _ (by decide) hL),
        hnotexit _ _ (hnotemit _ _ _ (by decide) hM), ?_, ?_⟩
      · intro h
        exact Bool.noConfusion h
      · exact fun _ => ⟨hnotexit _ _ (hnotemit _ _ _ (by decide) hR), rfl⟩
    | true =>
      rw [if_neg (show ¬(!true) = true from by decide)]
      cases hbr : o.buildRegions with
      | false =>
        rw [if_pos (show (!false) = true from rfl)]
        refine ⟨hmemexit _ _ (hmememit _ _ _ (by simp [emit])),
          hnotexit _ _ (hnotemit _ _ _ (by decide) (hnotemit _ _ _ (by decide) hL)),
          hnotexit _ _ (hnotemit _ _ _ (by decide) (hnotemit _ _ _ (by decide) hM)),
          ?_, ?_⟩
        · exact fun _ => hmemexit _ _ (by simp [emit])
        · intro h
          exact Bool.noConfusion h
      | true =>
        rw [if_neg (show ¬(!true) = true from by decide)]
        refine ⟨hmemAP _ _ (hmememit _ _ _ (by simp [emit])),
          hnotAP _ _ (Or.inl rfl)
            (hnotemit _ _ _ (by decide) (hnotemit _ _ _ (by decide) hL)),
          hnotAP _ _ (Or.inr (Or.inl rfl))
            (hnotemit _ _ _ (by decide) (hnotemit _ _ _ (by decide) hM)),
          ?_, ?_⟩
        · exact fun _ => hmemAP _ _ (by simp [emit])
        · intro h
          exact Bool.noConfusion h
  · rintro ⟨hp0, hp16, hp8⟩
    have hsel : bulkPartitionPhase o cfg flags st = bulkAfterPartition o cfg st := by
      simp only [bulkPartitionPhase]
      rw [if_neg hp0, if_neg hp16, if_neg hp8]
    rw [hsel]
    exact ⟨hnotAP _ _ (Or.inl rfl) hL,
      hnotAP _ _ (Or.inr (Or.inl rfl)) hM,
      hnotAP _ _ (Or.inr (Or.inr (Or.inl rfl))) hR,
      hnotAP _ _ (Or.inr (Or.inr (Or.inr rfl))) hD⟩

/-- Witness for C3 at the all-success oracle with `flags = 16` (monotone). -/
theorem C3_partition_selector_witness :
    ((16 : Int).land PARTITION_MASK = PARTITION_MONOTONE →
      Event.stage StageCall.buildRegionsMonotone ∈ (bindingRunBulk okOracle cfg0 16 0).2 ∧
      Event.stage StageCall.buildLayerRegions ∉ (bindingRunBulk okOracle cfg0 16 0).2 ∧
      Event.stage StageCall.buildRegions ∉ (bindingRunBulk okOracle cfg0 16 0).2 ∧
      Event.stage StageCall.buildDistanceField ∉ (bindingRunBulk okOracle cfg0 16 0).2) ∧
    (16 : Int).land PARTITION_MASK = PARTITION_MONOTONE :=
  ⟨((C3_partition_selector okOracle cfg0 16 0 rfl rfl rfl rfl rfl rfl rfl).2.1), by decide⟩

/-- C8: in every execution that reaches the partition step, the heightfield
is freed immediately after the compact build succeeds and immediately before
erosion (hence before partitioning and every later stage); and whenever the
ok status is returned the compact heightfield and the contour set have been
freed before the return, the envelope carrying exactly the polygon and
detail meshes plus the copied cell size, cell height and
max-vertices-per-polygon. -/
theorem C8_resource_lifecycle (o : BulkOracle) (cfg : RcConfig) (flags : Int) (ntris : Nat)
    (h1 : o.allocHf = true) (h2 : o.callocResult = true) (h3 : o.createHf = true)
    (h4 : o.callocTriAreas = true) (h5 : o.rasterize = true) (h6 : o.allocChf = true)
    (h7 : o.buildChf = true) :
    (∃ t1 t2, (bindingRunBulk o cfg flags ntris).2 =
       t1 ++ [Event.stage StageCall.buildCompactHeightfield, Event.free Res.hf,
              Event.stage StageCall.erodeWalkableArea] ++ t2) ∧
    (∀ r, (bindingRunBulk o cfg flags ntris).1 = BulkOutcome.returned r →
      r.code = BCodeStatus.ok →
      r = { code := BCodeStatus.ok, cs := cfg.cs, ch := cfg.ch, poly_mesh := some o.mesh,
            poly_mesh_detail := some o.dmesh, max_verts_per_poly := cfg.maxVertsPerPoly } ∧
      Event.free Res.chf ∈ (bindingRunBulk o cfg flags ntris).2 ∧
      Event.free Res.cset ∈ (bindingRunBulk o cfg flags ntris).2) := by
  obtain ⟨st, heq, hhf, hchf, hcset, hpm, hdm, -, t1, ht1⟩ :=
    bindingRunBulk_reaches_partition o cfg flags ntris h1 h2 h3 h4 h5 h6 h7
  rw [heq]
  constructor
  · refine ⟨t1, (bulkPartitionPhase o cfg flags st).2.drop st.events.length, ?_⟩
    conv_lhs => rw [bulkPartitionPhase_events_ext]
    rw [ht1]
  · intro r hr hok
    exact bulkPartitionPhase_ok o cfg flags st r hr hok

/-- Witness for C8 at the all-success oracle. -/
theorem C8_resource_lifecycle_witness :
    (okOracle.allocHf = true ∧ okOracle.callocResult = true ∧ okOracle.createHf = true ∧
     okOracle.callocTriAreas = true ∧ okOracle.rasterize = true ∧ okOracle.allocChf = true ∧
     okOracle.buildChf = true) ∧
    ((∃ t1 t2, (bindingRunBulk okOracle cfg0 0 0).2 =
       t1 ++ [Event.stage StageCall.buildCompactHeightfield, Event.free Res.hf,
              Event.stage StageCall.erodeWalkableArea] ++ t2) ∧
    (∀ r, (bindingRunBulk okOracle cfg0 0 0).1 = BulkOutcome.returned r →
      r.code = BCodeStatus.ok →
      r = { code := BCodeStatus.ok, cs := cfg0.cs, ch := cfg0.ch, poly_mesh := some okOracle.mesh,
            poly_mesh_detail := some okOracle.dmesh, max_verts_per_poly := cfg0.maxVertsPerPoly } ∧
      Event.free Res.chf ∈ (bindingRunBulk okOracle cfg0 0 0).2 ∧
      Event.free Res.cset ∈ (bindingRunBulk okOracle cfg0 0 0).2)) :=
  ⟨⟨rfl, rfl, rfl, rfl, rfl, rfl, rfl⟩,
   C8_resource_lifecycle okOracle cfg0 0 0 rfl rfl rfl rfl rfl rfl rfl⟩

end CRecast
